import Mathlib

/-!
A shallow embedding of the event-sourced issue store of `git-issue`
(Rust sources under `src/`): the domain types (`common/identity.rs`,
`common/priority.rs`, `common/comment.rs`, `common/event.rs`,
`common/issue.rs`), the Git-repository adapter (`storage/repo.rs`),
the issue store (`storage/issue_store.rs`), and the status parsers and
sync-classification logic of the CLI layer (`cli/commands/mod.rs`,
`cli/commands/edit.rs`, `cli/commands/sync.rs`).

Modelling conventions:
* timestamps (`chrono::DateTime<Utc>`) are modelled as `Int` instants;
  every function that calls `Utc::now()` in the source receives the
  current instant as an explicit `now : Int` argument;
* object ids (`gix::ObjectId`) are modelled as indices into the
  repository's object list; writing an object appends it.  The source
  renders oids to strings and re-parses them during chain traversal
  (`ObjectId::to_string` / `str::parse`), a lossless round trip that the
  embedding elides by storing oids directly;
* JSON serialization of events (`serde_json::to_string` /
  `from_slice`) is modelled by an injective constructor
  `BlobData.eventJson` with decoding as its partial inverse, and other
  blob payloads by `BlobData.text` carrying the literal string;
* the snapshot under `src/` is mid-way through a migration from a
  single `assignee: Option<Identity>` to a list of assignees: `Issue`
  (common/issue.rs) still has the single field, while
  `storage/issue_store.rs` reads a field `assignees` that does not
  exist (rustc E0609) and `Issue::apply_event` has no match arm for the
  `AssigneesChanged` / `CreatedByChanged` variants of `IssueEvent`
  (rustc E0004, non-exhaustive match).  These ill-formed spots are made
  explicit in the embedding: the fold returns `FoldOutcome.stuck` and
  store operations return `Err.illFormed` exactly where the source has
  no well-formed behaviour.
-/

/-- From `common/identity.rs`: `Identity { name, email }`, structural equality. -/
structure Identity where
  name : String
  email : String
deriving DecidableEq, Repr

/-- From `common/issue.rs` lines 10-15: the `IssueStatus` enum. -/
inductive IssueStatus where
  | todo
  | inProgress
  | done
deriving DecidableEq, Repr

/-- From `common/issue.rs` lines 17-25: `Display for IssueStatus`. -/
def IssueStatus.display : IssueStatus → String
  | .todo => "todo"
  | .inProgress => "in-progress"
  | .done => "done"

/-- From `common/priority.rs`: the `Priority` enum (`None` is rendered `noPrio`
to avoid clashing with `Option.none` in unqualified positions). -/
inductive Priority where
  | noPrio
  | urgent
  | high
  | medium
  | low
deriving DecidableEq, Repr

/-- From `common/priority.rs`: `Display for Priority`. -/
def Priority.display : Priority → String
  | .noPrio => "none"
  | .urgent => "urgent"
  | .high => "high"
  | .medium => "medium"
  | .low => "low"

/-- From `common/comment.rs`: `Comment { id, content, author, created_at }`. -/
structure Comment where
  id : String
  content : String
  author : Identity
  created_at : Int
deriving DecidableEq, Repr

/-- From `common/event.rs` lines 6-72: the `IssueEvent` enum, all 11 variants,
with the fields of the source in source order. -/
inductive IssueEvent where
  | created (title description : String) (author : Identity) (timestamp : Int)
  | statusChanged (fromStatus toStatus : IssueStatus) (author : Identity) (timestamp : Int)
  | commentAdded (comment_id content : String) (author : Identity) (timestamp : Int)
  | labelAdded (label : String) (author : Identity) (timestamp : Int)
  | labelRemoved (label : String) (author : Identity) (timestamp : Int)
  | titleChanged (old_title new_title : String) (author : Identity) (timestamp : Int)
  | assigneeChanged (old_assignee new_assignee : Option Identity) (author : Identity)
      (timestamp : Int)
  | assigneesChanged (old_assignees new_assignees : List Identity) (author : Identity)
      (timestamp : Int)
  | descriptionChanged (old_description new_description : String) (author : Identity)
      (timestamp : Int)
  | priorityChanged (old_priority new_priority : Priority) (author : Identity)
      (timestamp : Int)
  | createdByChanged (old_created_by new_created_by : Identity) (author : Identity)
      (timestamp : Int)
deriving DecidableEq, Repr

/-- From `common/event.rs` lines 194-208: `IssueEvent::author`. -/
def IssueEvent.author : IssueEvent → Identity
  | .created _ _ a _ => a
  | .statusChanged _ _ a _ => a
  | .commentAdded _ _ a _ => a
  | .labelAdded _ a _ => a
  | .labelRemoved _ a _ => a
  | .titleChanged _ _ a _ => a
  | .assigneeChanged _ _ a _ => a
  | .assigneesChanged _ _ a _ => a
  | .descriptionChanged _ _ a _ => a
  | .priorityChanged _ _ a _ => a
  | .createdByChanged _ _ a _ => a

/-- Whether the event is the `Created` variant. -/
def IssueEvent.isCreated : IssueEvent → Bool
  | .created _ _ _ _ => true
  | _ => false

/-- Whether the event is one of the two variants for which
`Issue::apply_event` (common/issue.rs lines 173-248) has no match arm:
`AssigneesChanged` and `CreatedByChanged`. -/
def IssueEvent.unhandledByFold : IssueEvent → Bool
  | .assigneesChanged _ _ _ _ => true
  | .createdByChanged _ _ _ _ => true
  | _ => false

/-- From `common/issue.rs` lines 40-53: the `Issue` aggregate.  Note the
single `assignee : Option Identity` field: this snapshot of the struct
has no `assignees` list. -/
structure Issue where
  id : Nat
  title : String
  description : String
  status : IssueStatus
  priority : Priority
  labels : List String
  comments : List Comment
  created_at : Int
  updated_at : Int
  created_by : Identity
  assignee : Option Identity
deriving DecidableEq, Repr

/-- Outcome of the replay fold.  `ok` and `err` mirror the source's
`Ok` / `Err(anyhow!)`; `stuck` marks an input on which the source match
of `Issue::apply_event` has no arm (`AssigneesChanged`,
`CreatedByChanged` — rustc rejects the match as non-exhaustive, E0004),
so the source assigns it no behaviour at all. -/
inductive FoldOutcome where
  | ok (i : Issue)
  | err (msg : String)
  | stuck
deriving DecidableEq, Repr

/-- From `common/issue.rs` lines 173-248: `Issue::apply_event`, arm for arm.
The two variants with no arm in the source map to `.stuck`. -/
def apply_event (i : Issue) : IssueEvent → FoldOutcome
  | .created _ _ _ _ =>
      .err "Cannot apply Created event to existing issue"
  | .statusChanged _ toStatus _ ts =>
      .ok { i with status := toStatus, updated_at := ts }
  | .commentAdded cid content a ts =>
      .ok { i with comments := i.comments ++ [⟨cid, content, a, ts⟩], updated_at := ts }
  | .labelAdded l _ ts =>
      .ok { i with
              labels := if i.labels.contains l then i.labels else i.labels ++ [l],
              updated_at := ts }
  | .labelRemoved l _ ts =>
      .ok { i with labels := i.labels.filter (fun x => x ≠ l), updated_at := ts }
  | .titleChanged _ newTitle _ ts =>
      .ok { i with title := newTitle, updated_at := ts }
  | .assigneeChanged _ newAssignee _ ts =>
      .ok { i with assignee := newAssignee, updated_at := ts }
  | .assigneesChanged _ _ _ _ => .stuck
  | .descriptionChanged _ newDescription _ ts =>
      .ok { i with description := newDescription, updated_at := ts }
  | .priorityChanged _ newPriority _ ts =>
      .ok { i with priority := newPriority, updated_at := ts }
  | .createdByChanged _ _ _ _ => .stuck

/-- The loop of `Issue::from_events` (common/issue.rs lines 166-168):
apply the events in order, propagating failure. -/
def apply_events (i : Issue) : List IssueEvent → FoldOutcome
  | [] => .ok i
  | e :: rest =>
      match apply_event i e with
      | .ok j => apply_events j rest
      | .err m => .err m
      | .stuck => .stuck

/-- From `common/issue.rs` lines 152-164: the aggregate initialised from the
`Created` event inside `Issue::from_events`. -/
def initialIssue (issue_id : Nat) (title description : String) (author : Identity)
    (ts : Int) : Issue :=
  { id := issue_id
    title := title
    description := description
    status := .todo
    priority := .noPrio
    labels := []
    comments := []
    created_at := ts
    updated_at := ts
    created_by := author
    assignee := none }

/-- From `common/issue.rs` lines 131-171: `Issue::from_events`. -/
def from_events (issue_id : Nat) : List IssueEvent → FoldOutcome
  | [] => .err "Cannot create issue from empty event list"
  | e :: rest =>
      match e with
      | .created title description author ts =>
          apply_events (initialIssue issue_id title description author ts) rest
      | _ => .err "First event must be Created"

/-- From `storage/repo.rs` lines 78-83: `TreeEntry { name, oid, mode }`; oids
modelled as indices into the object list. -/
structure TreeEntry where
  name : String
  oid : Nat
  mode : Nat
deriving DecidableEq, Repr

/-- The payload of a blob object.  `text` carries a literal utf-8
string (e.g. the next-issue-id counter); `eventJson` stands for the
`serde_json` rendering of an `IssueEvent` — serialization is modelled
as this injective constructor and deserialization as its partial
inverse. -/
inductive BlobData where
  | text (s : String)
  | eventJson (e : IssueEvent)
deriving DecidableEq, Repr

/-- The commit object written by `GitRepository::write_commit`
(storage/repo.rs lines 252-266): tree, parents, author and committer
signatures (both built from the same `author` argument), message, and
the signature time. -/
structure CommitObj where
  tree : Nat
  parents : List Nat
  author : Identity
  committer : Identity
  message : String
  timestamp : Int
deriving DecidableEq, Repr

/-- A Git object in the object database. -/
inductive GitObject where
  | blob (b : BlobData)
  | tree (entries : List TreeEntry)
  | commit (c : CommitObj)
deriving DecidableEq, Repr

/-- From `storage/repo.rs` lines 123-130: `CommitData`, the parsed form
returned by `read_commit` (no committer field in the source struct). -/
structure CommitData where
  tree : Nat
  parents : List Nat
  author : Identity
  message : String
  timestamp : Int
deriving DecidableEq, Repr

/-- The state of a repository: the object database (an oid is an index
into `objects`; a write appends) and the references (an association
list from ref name to oid). -/
structure RepoState where
  objects : List GitObject
  refs : List (String × Nat)
deriving DecidableEq, Repr

/-- First-match lookup in the reference association list. -/
def lookupRef : List (String × Nat) → String → Option Nat
  | [], _ => none
  | (n, o) :: rest, name => if n = name then some o else lookupRef rest name

/-- Replace the binding of `name` (or append it) in the reference list. -/
def setRef : List (String × Nat) → String → Nat → List (String × Nat)
  | [], name, oid => [(name, oid)]
  | (n, o) :: rest, name, oid =>
      if n = name then (name, oid) :: rest else (n, o) :: setRef rest name oid

/-- The error kinds of `storage/errors.rs` that the embedded operations
can raise.  `illFormed` is not a source error variant: it marks the
spots where the snapshot's code is rejected by rustc (the missing
`Issue.assignees` field, E0609, and the non-exhaustive
`apply_event` match, E0004), i.e. where the source assigns no
behaviour. -/
inductive Err where
  | refAlreadyExists (name : String)
  | concurrentModification (name : String)
  | objectNotFound (oid : Nat)
  | invalidObjectData (msg : String)
  | issueNotFound (id : Nat)
  | invalidEventSequence (msg : String)
  | invalidIssueId (value : String)
  | serialization (msg : String)
  | illFormed (msg : String)
deriving DecidableEq, Repr

/-- From `storage/repo.rs` lines 139-144 (`GitRepository::open`): the refs
namespace constant is `"refs/git-tracker"`. -/
def refs_namespace : String := "refs/git-tracker"

/-- From `storage/repo.rs` lines 563-565: `issue_ref_name`. -/
def issue_ref_name (issue_id : Nat) : String :=
  refs_namespace ++ "/issues/" ++ toString issue_id

/-- The meta ref name built in `get_next_issue_id` / `increment_issue_id`
(storage/repo.rs lines 511, 546). -/
def meta_ref : String := refs_namespace ++ "/meta/next-issue-id"

/-- Rust `str::starts_with`, via the character list (kernel-reducible). -/
def strStartsWith (s pfx : String) : Bool :=
  pfx.toList.isPrefixOf s.toList

/-- Rust `char::is_whitespace`: the Unicode White_Space property
(code points U+0009-U+000D, U+0020, U+0085, U+00A0, U+1680,
U+2000-U+200A, U+2028, U+2029, U+202F, U+205F, U+3000). -/
def rustIsWhitespace (c : Char) : Bool :=
  let n := c.toNat
  (n == 0x09) || (n == 0x0A) || (n == 0x0B) || (n == 0x0C) || (n == 0x0D) ||
  (n == 0x20) || (n == 0x85) || (n == 0xA0) || (n == 0x1680) ||
  (Nat.ble 0x2000 n && Nat.ble n 0x200A) ||
  (n == 0x2028) || (n == 0x2029) || (n == 0x202F) || (n == 0x205F) || (n == 0x3000)

/-- Rust `str::trim`: strip Unicode whitespace from both ends. -/
def strTrim (s : String) : String :=
  ⟨((s.toList.dropWhile rustIsWhitespace).reverse.dropWhile rustIsWhitespace).reverse⟩

/-- Rust `str::contains(char)`. -/
def strContainsChar (s : String) (c : Char) : Bool :=
  s.toList.contains c

/-- From `storage/repo.rs` lines 160-172: `write_blob` appends a blob and
returns its oid. -/
def write_blob (s : RepoState) (b : BlobData) : Nat × RepoState :=
  (s.objects.length, { s with objects := s.objects ++ [.blob b] })

/-- From `storage/repo.rs` lines 175-186: `read_blob`. -/
def read_blob (s : RepoState) (oid : Nat) : Except Err BlobData :=
  match s.objects[oid]? with
  | some (.blob b) => .ok b
  | _ => .error (.objectNotFound oid)

/-- From `storage/repo.rs` lines 189-216: `write_tree`. -/
def write_tree (s : RepoState) (entries : List TreeEntry) : Nat × RepoState :=
  (s.objects.length, { s with objects := s.objects ++ [.tree entries] })

/-- From `storage/repo.rs` lines 219-241: `read_tree`. -/
def read_tree (s : RepoState) (oid : Nat) : Except Err (List TreeEntry) :=
  match s.objects[oid]? with
  | some (.tree entries) => .ok entries
  | _ => .error (.objectNotFound oid)

/-- From `storage/repo.rs` lines 244-276: `write_commit`.  The source sets
the signature time to `chrono::Utc::now()` (line 251) — the `now`
argument here — and uses the same signature for author and committer. -/
def write_commit (s : RepoState) (tree : Nat) (parents : List Nat) (author : Identity)
    (message : String) (now : Int) : Nat × RepoState :=
  (s.objects.length,
   { s with objects := s.objects ++
       [.commit { tree := tree, parents := parents, author := author,
                  committer := author, message := message, timestamp := now }] })

/-- From `storage/repo.rs` lines 279-306: `read_commit`.  The source does
not parse the stored time: line 297 sets `timestamp = Utc::now()`
(with a `TODO` comment), i.e. the clock at read time — the `now`
argument here. -/
def read_commit (s : RepoState) (oid : Nat) (now : Int) : Except Err CommitData :=
  match s.objects[oid]? with
  | some (.commit c) =>
      .ok { tree := c.tree, parents := c.parents, author := c.author,
            message := c.message, timestamp := now }
  | _ => .error (.objectNotFound oid)

/-- From `storage/repo.rs` lines 309-351: `create_ref` with
`PreviousValue::MustNotExist`. -/
def create_ref (s : RepoState) (name : String) (oid : Nat) : Except Err RepoState :=
  if (lookupRef s.refs name).isSome then .error (.refAlreadyExists name)
  else .ok { s with refs := (name, oid) :: s.refs }

/-- From `storage/repo.rs` lines 354-406: `update_ref`; with an expected
value the transaction requires `MustExistAndMatch`, failing as a
concurrent modification otherwise. -/
def update_ref (s : RepoState) (name : String) (oid : Nat) (expected : Option Nat) :
    Except Err RepoState :=
  match expected with
  | some e =>
      match lookupRef s.refs name with
      | some cur =>
          if cur = e then .ok { s with refs := setRef s.refs name oid }
          else .error (.concurrentModification name)
      | none => .error (.concurrentModification name)
  | none => .ok { s with refs := setRef s.refs name oid }

/-- From `storage/repo.rs` lines 409-424: `read_ref` (absent refs give `None`). -/
def read_ref (s : RepoState) (name : String) : Option Nat :=
  lookupRef s.refs name

/-- From `storage/repo.rs` lines 469-507: `list_refs` filters all refs by
string prefix (enumeration order unspecified; here, list order). -/
def list_refs (s : RepoState) (pfx : String) : List (String × Nat) :=
  s.refs.filter (fun p => strStartsWith p.1 pfx)

/-- Rust `str::parse::<u64>` on a trimmed string: an optional leading `+`,
then one or more ascii digits, value below `2 ^ 64`; anything else is a
parse error. -/
def parseU64 (s : String) : Option Nat :=
  let cs := s.toList
  let digits := if cs.head? = some '+' then cs.tail else cs
  if digits.isEmpty then none
  else if digits.all (fun c => c.isDigit) then
    let v := digits.foldl (fun acc c => acc * 10 + (c.toNat - 48)) 0
    if v < 2 ^ 64 then some v else none
  else none

/-- From `storage/repo.rs` lines 510-534: `get_next_issue_id`.  Absent meta
ref gives 1; otherwise the blob is decoded as utf-8, trimmed and parsed
as `u64`.  A blob holding event JSON cannot parse as a decimal (it
starts with a brace), so it maps to the same `InvalidObjectData`
error as a non-numeric text blob. -/
def get_next_issue_id (s : RepoState) : Except Err Nat :=
  match read_ref s meta_ref with
  | some oid =>
      match read_blob s oid with
      | .error e => .error e
      | .ok (.text str) =>
          match parseU64 (strTrim str) with
          | some n => .ok n
          | none => .error (.invalidObjectData ("Invalid issue ID format: " ++ str))
      | .ok (.eventJson _) => .error (.invalidObjectData "Invalid issue ID format")
  | none => .ok 1

/-- From `storage/repo.rs` lines 537-560: `increment_issue_id`.  Reads the
current value, writes a blob holding `next_id.to_string()` — the bare
decimal digits, no trailing newline — and installs it by creating the
meta ref when absent, else updating it with the previous blob oid as
the expected value.  Returns the pre-increment value.  The source
computes `current_id + 1` in `u64` arithmetic: at `u64::MAX` the sum
wraps modulo `2 ^ 64` (release builds; a debug build would panic), so
the successor is taken modulo `2 ^ 64` here. -/
def increment_issue_id (s : RepoState) : Except Err (Nat × RepoState) :=
  match get_next_issue_id s with
  | .error e => .error e
  | .ok current_id =>
      let next_id := (current_id + 1) % 2 ^ 64
      let (blob_oid, s1) := write_blob s (.text (toString next_id))
      match read_ref s1 meta_ref with
      | some old_oid =>
          match update_ref s1 meta_ref blob_oid (some old_oid) with
          | .ok s2 => .ok (current_id, s2)
          | .error e => .error e
      | none =>
          match create_ref s1 meta_ref blob_oid with
          | .ok s2 => .ok (current_id, s2)
          | .error e => .error e

/-- From `storage/issue_store.rs` lines 513-547: the commit message derived
from the event inside `append_event`. -/
def commitMessageFor : IssueEvent → String
  | .created title _ _ _ => "Created: " ++ title
  | .statusChanged fromStatus toStatus _ _ =>
      "StatusChanged: " ++ fromStatus.display ++ " → " ++ toStatus.display
  | .commentAdded comment_id _ _ _ => "CommentAdded: " ++ comment_id
  | .labelAdded label _ _ => "LabelAdded: " ++ label
  | .labelRemoved label _ _ => "LabelRemoved: " ++ label
  | .titleChanged _ new_title _ _ => "TitleChanged: " ++ new_title
  | .assigneeChanged _ new_assignee _ _ =>
      match new_assignee with
      | some identity => "AssigneeChanged: " ++ identity.name
      | none => "AssigneeChanged: unassigned"
  | .assigneesChanged _ new_assignees _ _ =>
      if new_assignees.isEmpty then "AssigneesChanged: unassigned all"
      else if new_assignees.length = 1 then
        "AssigneesChanged: " ++ (new_assignees.headD ⟨"", ""⟩).name
      else "AssigneesChanged: " ++ toString new_assignees.length ++ " assignees"
  | .descriptionChanged _ _ _ _ => "DescriptionChanged"
  | .priorityChanged old_priority new_priority _ _ =>
      "PriorityChanged: " ++ old_priority.display ++ " → " ++ new_priority.display
  | .createdByChanged _ new_created_by _ _ =>
      "CreatedByChanged: " ++ new_created_by.email

/-- From `storage/issue_store.rs` lines 493-570: `append_event`.  Serializes
the event, writes blob, single-entry tree (`event.json`, mode
`0o100644`) and commit (author = committer = the event's author,
parents = the expected parent if any), then creates the issue ref for a
first event or updates it with the expected parent as CAS value. -/
def append_event (s : RepoState) (issue_id : Nat) (e : IssueEvent)
    (parent_commit : Option Nat) (now : Int) : Except Err RepoState :=
  let (blob_oid, s1) := write_blob s (.eventJson e)
  let (tree_oid, s2) := write_tree s1 [{ name := "event.json", oid := blob_oid, mode := 0o100644 }]
  let parents := match parent_commit with
    | some oid => [oid]
    | none => []
  let (commit_oid, s3) := write_commit s2 tree_oid parents e.author (commitMessageFor e) now
  match parent_commit with
  | some expected_parent => update_ref s3 (issue_ref_name issue_id) commit_oid (some expected_parent)
  | none => create_ref s3 (issue_ref_name issue_id) commit_oid

/-- From `storage/issue_store.rs` lines 66-82: `create_issue` — allocate an
id, build the `Created` event (`IssueEvent::created` stamps it with
`Utc::now()`), and append it with no parent. -/
def create_issue (s : RepoState) (title description : String) (author : Identity)
    (now : Int) : Except Err (Nat × RepoState) :=
  match increment_issue_id s with
  | .error e => .error e
  | .ok (issue_id, s1) =>
      let created_event := IssueEvent.created title description author now
      match append_event s1 issue_id created_event none now with
      | .ok s2 => .ok (issue_id, s2)
      | .error e => .error e

/-- The commit-chain walk inside `get_issue_events`
(storage/issue_store.rs lines 443-477), newest first: read the commit,
its tree, the `event.json` entry, decode the blob, and follow the first
parent.  The walk is fueled; Git's object graph is acyclic (a commit
can only reference objects that already exist), so on any state built
through the write operations a fuel of `objects.length + 1` is never
exhausted. -/
def collectEvents (s : RepoState) : Nat → Nat → Except Err (List IssueEvent)
  | 0, _ => .error (.invalidEventSequence "traversal fuel exhausted")
  | fuel + 1, commit_oid =>
      match read_commit s commit_oid 0 with
      | .error e => .error e
      | .ok commit_data =>
          match read_tree s commit_data.tree with
          | .error e => .error e
          | .ok tree_entries =>
              match (tree_entries.find? (fun entry => entry.name = "event.json")).map (·.oid) with
              | none => .error (.invalidEventSequence "No event.json in commit tree")
              | some event_blob_oid =>
                  match read_blob s event_blob_oid with
                  | .error e => .error e
                  | .ok (.text _) => .error (.serialization "invalid event JSON")
                  | .ok (.eventJson event) =>
                      match commit_data.parents.head? with
                      | none => .ok [event]
                      | some parent_oid =>
                          match collectEvents s fuel parent_oid with
                          | .error e => .error e
                          | .ok rest => .ok (event :: rest)

/-- From `storage/issue_store.rs` lines 433-482: `get_issue_events`.  Absent
ref yields the empty sequence; otherwise the chain is walked from the
head and reversed into chronological (oldest-first) order. -/
def get_issue_events (s : RepoState) (issue_id : Nat) : Except Err (List IssueEvent) :=
  match read_ref s (issue_ref_name issue_id) with
  | none => .ok []
  | some head_commit_oid =>
      match collectEvents s (s.objects.length + 1) head_commit_oid with
      | .error e => .error e
      | .ok events => .ok events.reverse

/-- From `storage/issue_store.rs` lines 88-97: `get_issue` — empty event
sequence fails as `IssueNotFound`; a fold error is wrapped as
`InvalidEventSequence`; the fold getting stuck on an unhandled variant
is the ill-formed spot of the snapshot. -/
def get_issue (s : RepoState) (issue_id : Nat) : Except Err Issue :=
  match get_issue_events s issue_id with
  | .error e => .error e
  | .ok events =>
      if events.isEmpty then .error (.issueNotFound issue_id)
      else
        match from_events issue_id events with
        | .ok i => .ok i
        | .err m => .error (.invalidEventSequence m)
        | .stuck => .error (.illFormed "apply_event: no match arm for this event variant")

/-- From `storage/issue_store.rs` lines 485-490: `get_issue_head_commit`. -/
def get_issue_head_commit (s : RepoState) (issue_id : Nat) : Except Err Nat :=
  match read_ref s (issue_ref_name issue_id) with
  | some oid => .ok oid
  | none => .error (.issueNotFound issue_id)

/-- From `storage/issue_store.rs` lines 110-134: `update_issue_status` —
no-op (no write at all) when the current status equals the requested
one, else append a `StatusChanged` event on the current head. -/
def update_issue_status (s : RepoState) (issue_id : Nat) (new_status : IssueStatus)
    (author : Identity) (now : Int) : Except Err RepoState :=
  match get_issue s issue_id with
  | .error e => .error e
  | .ok current_issue =>
      if current_issue.status = new_status then .ok s
      else
        let status_event :=
          IssueEvent.statusChanged current_issue.status new_status author now
        match get_issue_head_commit s issue_id with
        | .error e => .error e
        | .ok parent_commit => append_event s issue_id status_event (some parent_commit) now

/-- From `storage/issue_store.rs` lines 165-189: `add_label` — no-op when
the label is already present. -/
def add_label (s : RepoState) (issue_id : Nat) (label : String) (author : Identity)
    (now : Int) : Except Err RepoState :=
  match get_issue s issue_id with
  | .error e => .error e
  | .ok current_issue =>
      if current_issue.labels.contains label then .ok s
      else
        let label_event := IssueEvent.labelAdded label author now
        match get_issue_head_commit s issue_id with
        | .error e => .error e
        | .ok parent_commit => append_event s issue_id label_event (some parent_commit) now

/-- From `storage/issue_store.rs` lines 192-216: `remove_label` — no-op when
the label is absent. -/
def remove_label (s : RepoState) (issue_id : Nat) (label : String) (author : Identity)
    (now : Int) : Except Err RepoState :=
  match get_issue s issue_id with
  | .error e => .error e
  | .ok current_issue =>
      if ¬ current_issue.labels.contains label then .ok s
      else
        let label_event := IssueEvent.labelRemoved label author now
        match get_issue_head_commit s issue_id with
        | .error e => .error e
        | .ok parent_commit => append_event s issue_id label_event (some parent_commit) now

/-- From `storage/issue_store.rs` lines 219-243: `update_title` — no-op when
unchanged. -/
def update_title (s : RepoState) (issue_id : Nat) (new_title : String) (author : Identity)
    (now : Int) : Except Err RepoState :=
  match get_issue s issue_id with
  | .error e => .error e
  | .ok current_issue =>
      if current_issue.title = new_title then .ok s
      else
        let title_event := IssueEvent.titleChanged current_issue.title new_title author now
        match get_issue_head_commit s issue_id with
        | .error e => .error e
        | .ok parent_commit => append_event s issue_id title_event (some parent_commit) now

/-- From `storage/issue_store.rs` lines 246-271: `update_assignee`.  Its
no-op guard reads `current_issue.assignees.first()`, but the `Issue`
struct of this snapshot has no `assignees` field (rustc E0609): the
function has no well-formed behaviour once the issue is loaded. -/
def update_assignee (s : RepoState) (issue_id : Nat) (_new_assignee : Option Identity)
    (_author : Identity) (_now : Int) : Except Err RepoState :=
  match get_issue s issue_id with
  | .error e => .error e
  | .ok _ => .error (.illFormed "Issue has no field assignees")

/-- From `storage/issue_store.rs` lines 274-299: `update_assignees`.  Its
no-op guard compares `current_issue.assignees` with the argument, but
the `Issue` struct of this snapshot has no `assignees` field (rustc
E0609): the function has no well-formed behaviour once the issue is
loaded. -/
def update_assignees (s : RepoState) (issue_id : Nat) (_new_assignees : List Identity)
    (_author : Identity) (_now : Int) : Except Err RepoState :=
  match get_issue s issue_id with
  | .error e => .error e
  | .ok _ => .error (.illFormed "Issue has no field assignees")

/-- From `storage/issue_store.rs` lines 353-372: `update_description` —
appends only when the description differs. -/
def update_description (s : RepoState) (issue_id : Nat) (new_description : String)
    (author : Identity) (now : Int) : Except Err RepoState :=
  match get_issue s issue_id with
  | .error e => .error e
  | .ok issue =>
      let old_description := issue.description
      if old_description ≠ new_description then
        let event :=
          IssueEvent.descriptionChanged old_description new_description author now
        match get_issue_head_commit s issue_id with
        | .error e => .error e
        | .ok parent_commit => append_event s issue_id event (some parent_commit) now
      else .ok s

/-- From `storage/issue_store.rs` lines 375-400: `update_priority` — no-op
when unchanged. -/
def update_priority (s : RepoState) (issue_id : Nat) (new_priority : Priority)
    (author : Identity) (now : Int) : Except Err RepoState :=
  match get_issue s issue_id with
  | .error e => .error e
  | .ok current_issue =>
      if current_issue.priority = new_priority then .ok s
      else
        let priority_event :=
          IssueEvent.priorityChanged current_issue.priority new_priority author now
        match get_issue_head_commit s issue_id with
        | .error e => .error e
        | .ok parent_commit => append_event s issue_id priority_event (some parent_commit) now

/-- From `storage/issue_store.rs` lines 403-428: `update_created_by` — no-op
when unchanged (the `created_by` field does exist, so this operation is
well-formed even though replay cannot fold the event it appends). -/
def update_created_by (s : RepoState) (issue_id : Nat) (new_created_by : Identity)
    (author : Identity) (now : Int) : Except Err RepoState :=
  match get_issue s issue_id with
  | .error e => .error e
  | .ok current_issue =>
      if current_issue.created_by = new_created_by then .ok s
      else
        let creator_event :=
          IssueEvent.createdByChanged current_issue.created_by new_created_by author now
        match get_issue_head_commit s issue_id with
        | .error e => .error e
        | .ok parent_commit => append_event s issue_id creator_event (some parent_commit) now

/-- Rust `str::strip_prefix`: the remainder of `s` after `pfx`, when `pfx`
is a prefix. -/
def dropPfx (s pfx : String) : Option String :=
  if strStartsWith s pfx then some ⟨s.toList.drop pfx.toList.length⟩ else none

/-- Insert into an ascendingly sorted list of naturals. -/
def insertAsc (n : Nat) : List Nat → List Nat
  | [] => [n]
  | m :: rest => if n ≤ m then n :: m :: rest else m :: insertAsc n rest

/-- Ascending sort (`Vec::sort` on the collected ids). -/
def sortAsc (l : List Nat) : List Nat :=
  l.foldr insertAsc []

/-- The collection loop of `list_issue_ids` (storage/issue_store.rs
lines 306-316): strip the `refs/git-issue/issues/` prefix from each ref
name and parse the suffix as `u64`, failing on a malformed suffix. -/
def collectIssueIds : List (String × Nat) → Except Err (List Nat)
  | [] => .ok []
  | (ref_name, _) :: rest =>
      match dropPfx ref_name "refs/git-issue/issues/" with
      | some id_str =>
          match parseU64 id_str with
          | some issue_id =>
              match collectIssueIds rest with
              | .ok ids => .ok (issue_id :: ids)
              | .error e => .error e
          | none => .error (.invalidIssueId id_str)
      | none => collectIssueIds rest

/-- From `storage/issue_store.rs` lines 302-320: `list_issue_ids`.  Note the
enumeration prefix is the hard-coded `"refs/git-issue/issues/"`, not
the `refs/git-tracker` namespace that `issue_ref_name` writes under. -/
def list_issue_ids (s : RepoState) : Except Err (List Nat) :=
  match collectIssueIds (list_refs s "refs/git-issue/issues/") with
  | .ok ids => .ok (sortAsc ids)
  | .error e => .error e

/-- From `storage/issue_store.rs` lines 587-590: `list_issue_refs` — the ref
names under the hard-coded `"refs/git-issue/issues/"` prefix. -/
def list_issue_refs (s : RepoState) : List String :=
  (list_refs s "refs/git-issue/issues/").map (·.1)

/-- From `storage/issue_store.rs` lines 593-596: `list_meta_refs`. -/
def list_meta_refs (s : RepoState) : List String :=
  (list_refs s "refs/git-issue/meta/").map (·.1)

/-- The loop of `list_issues` (storage/issue_store.rs lines 327-336):
a reconstructed issue is pushed; a `IssueNotFound` failure is skipped;
any other failure aborts the whole listing. -/
def listIssuesLoop (s : RepoState) : List Nat → Except Err (List Issue)
  | [] => .ok []
  | issue_id :: rest =>
      match get_issue s issue_id with
      | .ok issue =>
          match listIssuesLoop s rest with
          | .ok issues => .ok (issue :: issues)
          | .error e => .error e
      | .error (.issueNotFound _) => listIssuesLoop s rest
      | .error e => .error e

/-- From `storage/issue_store.rs` lines 323-339: `list_issues`. -/
def list_issues (s : RepoState) : Except Err (List Issue) :=
  match list_issue_ids s with
  | .ok issue_ids => listIssuesLoop s issue_ids
  | .error e => .error e

/-- Ascii lowercasing standing for Rust's `str::to_lowercase` (the
status and priority tokens are all ascii, where the two agree). -/
def lowerStr (s : String) : String := ⟨s.toList.map Char.toLower⟩

/-- From `common/issue.rs` lines 27-38: `IssueStatus::from_str` — exactly
the tokens `todo`, `in-progress`, `inprogress`, `done` after
lowercasing; everything else is an error (modelled `none`). -/
def IssueStatus.fromStr (s : String) : Option IssueStatus :=
  let t := lowerStr s
  if t = "todo" then some .todo
  else if t = "in-progress" ∨ t = "inprogress" then some .inProgress
  else if t = "done" then some .done
  else none

/-- From `cli/commands/mod.rs` lines 102-112: `parse_status` — the CLI
argument grammar with the extra aliases `open`, `progress`, `closed`,
`complete`. -/
def parse_status (s : String) : Option IssueStatus :=
  let t := lowerStr s
  if t = "todo" ∨ t = "open" then some .todo
  else if t = "in-progress" ∨ t = "inprogress" ∨ t = "progress" then some .inProgress
  else if t = "done" ∨ t = "closed" ∨ t = "complete" then some .done
  else none

/-- From `cli/commands/edit.rs` lines 13-20: the YAML form `EditableIssue`. -/
structure EditableIssue where
  title : String
  status : String
  labels : List String
  assignee : Option String
  description : String
deriving DecidableEq, Repr

/-- The label loop of `validate_editable_issue` (cli/commands/edit.rs
lines 209-224), checking each label in order. -/
def validateLabels : List String → Except String Unit
  | [] => .ok ()
  | label :: rest =>
      let trimmed := strTrim label
      if trimmed ≠ label then
        .error ("Label has leading or trailing whitespace: " ++ label)
      else if strContainsChar trimmed ' ' then .error ("Label contains spaces: " ++ label)
      else if trimmed = "" then .error "Empty label found"
      else validateLabels rest

/-- From `cli/commands/edit.rs` lines 200-234: `validate_editable_issue`.
The status field is checked with `str::parse::<IssueStatus>`, i.e.
`IssueStatus::from_str` — not with the CLI's `parse_status`. -/
def validate_editable_issue (e : EditableIssue) : Except String Unit :=
  if strTrim e.title = "" then .error "Title cannot be empty"
  else
    match IssueStatus.fromStr e.status with
    | none => .error ("Invalid status: " ++ e.status)
    | some _ =>
        match validateLabels e.labels with
        | .error m => .error m
        | .ok () =>
            match e.assignee with
            | some email =>
                if ¬ strContainsChar email '@' then .error ("Invalid email format: " ++ email)
                else .ok ()
            | none => .ok ()

/-- From `cli/commands/sync.rs` lines 40-56: `RefComparisonResult`. -/
inductive RefComparisonResult where
  | fastForward (local_commits : Nat)
  | behind (remote_commits : Nat)
  | diverged (local_commits remote_commits : Nat)
  | upToDate
  | newRef
  | locallyDeleted
deriving DecidableEq, Repr

/-- From `cli/commands/sync.rs` lines 60-66: `SyncRef`. -/
structure SyncRef where
  ref_name : String
  local_oid : Option String
  remote_oid : Option String
  comparison : RefComparisonResult
  issue_id : Option Nat
deriving DecidableEq, Repr

/-- Lookup in the fetched remote-ref map (ref name to oid string). -/
def lookupStr : List (String × String) → String → Option String
  | [], _ => none
  | (k, v) :: rest, key => if k = key then some v else lookupStr rest key

/-- From `cli/commands/sync.rs` lines 224-264: `compare_refs`.  The local
oid is the literal placeholder `"placeholder_local_oid"` (line 231) —
the actual local ref value is never read — and the both-present,
different-oids case is hard-coded `FastForward { local_commits: 1 }`
(line 239). -/
def compare_refs (local_refs : List String) (remote_refs : List (String × String)) :
    List SyncRef :=
  local_refs.map (fun ref_name =>
    let local_oid : Option String := some "placeholder_local_oid"
    let remote_oid := lookupStr remote_refs ref_name
    let comparison :=
      match remote_oid with
      | none => RefComparisonResult.newRef
      | some remote =>
          if "placeholder_local_oid" = remote then RefComparisonResult.upToDate
          else RefComparisonResult.fastForward 1
    let issue_id :=
      if strStartsWith ref_name "refs/git-issue/issues/" then
        match dropPfx ref_name "refs/git-issue/issues/" with
        | some id_str => parseU64 id_str
        | none => none
      else none
    { ref_name := ref_name, local_oid := local_oid, remote_oid := remote_oid,
      comparison := comparison, issue_id := issue_id })

/-- From `cli/commands/sync.rs` lines 108-117: the remote-ref map that
`handle_sync` feeds into `compare_refs` — for a dry run the fetch is
skipped entirely and an empty map is used in its place. -/
def handle_sync_remote_refs (fetched : List (String × String)) (dry_run : Bool) :
    List (String × String) :=
  if dry_run then [] else fetched

/-- The classification a `handle_sync` run computes (sync.rs line 117):
`compare_refs` applied to the dry-run-dependent remote map. -/
def handle_sync_classification (refs_to_sync : List String)
    (fetched : List (String × String)) (dry_run : Bool) : List SyncRef :=
  compare_refs refs_to_sync (handle_sync_remote_refs fetched dry_run)

/-- Whether `get_issue`'s result is a success or an `IssueNotFound`
failure — the only two outcomes that `list_issues` handles without
aborting. -/
def okOrNotFound : Except Err Issue → Bool
  | .ok _ => true
  | .error (.issueNotFound _) => true
  | .error _ => false

/-- Whether an error is the `IssueNotFound` variant — the only error
`list_issues` skips. -/
def notFoundErr : Err → Bool
  | .issueNotFound _ => true
  | _ => false

/-- A fixed author identity for the concrete test states. -/
def aliceId : Identity := { name := "Alice", email := "alice@example.com" }

/-- A second identity. -/
def bobId : Identity := { name := "Bob", email := "bob@example.com" }

/-- The repository state produced by `create_issue` on a fresh
repository with title `"T1"`, description `"D"`, author `aliceId`, at
instant 0: the allocator blob, the event blob, its tree, the `Created`
commit, the issue ref (under `refs/git-tracker`) and the meta ref. -/
def issueOneState : RepoState :=
  { objects :=
      [.blob (.text "2"),
       .blob (.eventJson (.created "T1" "D" aliceId 0)),
       .tree [{ name := "event.json", oid := 1, mode := 33188 }],
       .commit { tree := 2, parents := [], author := aliceId, committer := aliceId,
                 message := "Created: T1", timestamp := 0 }],
    refs := [("refs/git-tracker/issues/1", 3), ("refs/git-tracker/meta/next-issue-id", 0)] }

/-- A repository state whose issue 1 has the two-event chain
`[Created, AssigneesChanged]` (well-formed Git data; the second event
is one the replay fold has no arm for). -/
def assigneesChainState : RepoState :=
  { objects :=
      [.blob (.eventJson (.created "T" "D" aliceId 0)),
       .tree [{ name := "event.json", oid := 0, mode := 33188 }],
       .commit { tree := 1, parents := [], author := aliceId, committer := aliceId,
                 message := "Created: T", timestamp := 0 },
       .blob (.eventJson (.assigneesChanged [] [aliceId] aliceId 1)),
       .tree [{ name := "event.json", oid := 3, mode := 33188 }],
       .commit { tree := 4, parents := [2], author := aliceId, committer := aliceId,
                 message := "AssigneesChanged: Alice", timestamp := 1 }],
    refs := [("refs/git-tracker/issues/1", 5)] }

/-- A repository state with an issue ref present under both the
`refs/git-issue` namespace (so that `list_issue_ids` sees it) and the
`refs/git-tracker` namespace (so that `get_issue` follows it), whose
single commit's `event.json` blob does not hold event JSON: the chain
decodes with a serialization failure. -/
def corruptChainState : RepoState :=
  { objects :=
      [.blob (.text "junk"),
       .tree [{ name := "event.json", oid := 0, mode := 33188 }],
       .commit { tree := 1, parents := [], author := aliceId, committer := aliceId,
                 message := "Created: X", timestamp := 0 }],
    refs := [("refs/git-issue/issues/1", 2), ("refs/git-tracker/issues/1", 2)] }

/-- A repository state listing two ids under `refs/git-issue/issues/`
of which only issue 1 also has a chain under the `refs/git-tracker`
namespace that `get_issue` reads: reconstruction of issue 2 fails with
`IssueNotFound` (empty chain), so a listing must skip it and still
return issue 1. -/
def mixedState : RepoState :=
  { objects :=
      [.blob (.text "2"),
       .blob (.eventJson (.created "T1" "D" aliceId 0)),
       .tree [{ name := "event.json", oid := 1, mode := 33188 }],
       .commit { tree := 2, parents := [], author := aliceId, committer := aliceId,
                 message := "Created: T1", timestamp := 0 }],
    refs := [("refs/git-issue/issues/1", 3), ("refs/git-issue/issues/2", 3),
             ("refs/git-tracker/issues/1", 3), ("refs/git-tracker/meta/next-issue-id", 0)] }

/-- A repository state whose next-issue-id blob holds `u64::MAX`: the
boundary at which the source's `current_id + 1` wraps to 0. -/
def maxIdState : RepoState :=
  { objects := [.blob (.text "18446744073709551615")], refs := [(meta_ref, 0)] }

/-- An event chain that exercises the duplicate-label guard of the
fold: the same label is added twice. -/
def dupLabelEvents : List IssueEvent :=
  [.created "T" "D" aliceId 0, .labelAdded "bug" aliceId 1, .labelAdded "bug" aliceId 2]

/-- The issue that replaying `dupLabelEvents` reconstructs. -/
def dupLabelIssue : Issue :=
  { id := 1, title := "T", description := "D", status := .todo, priority := .noPrio,
    labels := ["bug"], comments := [], created_at := 0, updated_at := 2,
    created_by := aliceId, assignee := none }

/-- The repository state produced by appending a `StatusChanged` event
carrying timestamp 5 to a fresh repository when the write-side clock
reads 7: the stored commit's signature time is 7, the clock at write
time, not the event's own timestamp. -/
def staleClockState : RepoState :=
  { objects :=
      [.blob (.eventJson (.statusChanged .todo .inProgress aliceId 5)),
       .tree [{ name := "event.json", oid := 0, mode := 33188 }],
       .commit { tree := 1, parents := [], author := aliceId, committer := aliceId,
                 message := "StatusChanged: todo → in-progress", timestamp := 7 }],
    refs := [("refs/git-tracker/issues/1", 2)] }

/-- C1.  The claim fails on the code: `create_issue` on a fresh
repository returns id 1 and installs the issue's ref (under the
`refs/git-tracker` namespace that `issue_ref_name` uses), yet
`list_issue_ids` and `list_issue_refs` — which enumerate the hard-coded
`refs/git-issue/issues/` prefix — do not include the new id or its
ref: the append side and the listing side use different namespace
prefixes. -/
theorem c1_created_issue_invisible_to_listing :
    create_issue ⟨[], []⟩ "T1" "D" aliceId 0 = .ok (1, issueOneState)
    ∧ read_ref issueOneState (issue_ref_name 1) = some 3
    ∧ list_issue_ids issueOneState = .ok []
    ∧ list_issue_refs issueOneState = [] :=
  ⟨rfl, rfl, rfl, rfl⟩

/-- C2.  The claim fails on the code: the replay fold has no arm at all
for `AssigneesChanged` and `CreatedByChanged` (the source match is
non-exhaustive), so applying either gets stuck instead of updating the
aggregate; and the `AssigneeChanged` arm writes the single
`assignee : Option Identity` field — the `Issue` struct has no
`assignees` list for the fold table to update. -/
theorem c2_fold_missing_assignee_arms :
    apply_event (initialIssue 1 "T1" "D" aliceId 0)
        (.assigneesChanged [] [bobId] aliceId 7) = .stuck
    ∧ apply_event (initialIssue 1 "T1" "D" aliceId 0)
        (.createdByChanged aliceId bobId aliceId 7) = .stuck
    ∧ apply_event (initialIssue 1 "T1" "D" aliceId 0)
        (.assigneeChanged none (some bobId) aliceId 7)
      = .ok { initialIssue 1 "T1" "D" aliceId 0 with assignee := some bobId, updated_at := 7 } :=
  ⟨rfl, rfl, rfl⟩

/-- C3.  The claim fails on the code: appending an event whose own
timestamp is 5 while the write-side clock reads 7 stores a commit whose
signature time is 7 (the clock, not the event timestamp), although
author and committer do equal the event's author; and `read_commit` at
clock instant 9 reports timestamp 9 — the clock at read time, not
anything parsed from the stored commit object. -/
theorem c3_commit_time_is_wall_clock :
    append_event ⟨[], []⟩ 1 (.statusChanged .todo .inProgress aliceId 5) none 7
      = .ok staleClockState
    ∧ staleClockState.objects[2]?
      = some (.commit { tree := 1, parents := [], author := aliceId, committer := aliceId,
                        message := "StatusChanged: todo → in-progress", timestamp := 7 })
    ∧ read_commit staleClockState 2 9
      = .ok { tree := 1, parents := [], author := aliceId,
              message := "StatusChanged: todo → in-progress", timestamp := 9 }
    ∧ (7 : Int) ≠ 5 ∧ (9 : Int) ≠ 7 :=
  ⟨rfl, rfl, rfl, by decide, by decide⟩

/-- C5.  The claim fails on the code for one of the operations it
lists: on the freshly created issue 1, the no-change requests for
status, labels, title, description and priority all return success
with the state untouched, but `update_assignees` with the issue's
current (empty) assignee list — and `update_assignee` with its current
`None` — fail instead of no-opping, because their guards read the
`assignees` field that the `Issue` struct does not have. -/
theorem c5_assignee_noop_is_ill_formed :
    update_issue_status issueOneState 1 .todo aliceId 5 = .ok issueOneState
    ∧ remove_label issueOneState 1 "bug" aliceId 5 = .ok issueOneState
    ∧ update_title issueOneState 1 "T1" aliceId 5 = .ok issueOneState
    ∧ update_description issueOneState 1 "D" aliceId 5 = .ok issueOneState
    ∧ update_priority issueOneState 1 .noPrio aliceId 5 = .ok issueOneState
    ∧ update_assignees issueOneState 1 [] aliceId 5
      = .error (.illFormed "Issue has no field assignees")
    ∧ update_assignee issueOneState 1 none aliceId 5
      = .error (.illFormed "Issue has no field assignees") :=
  ⟨rfl, rfl, rfl, rfl, rfl, rfl, rfl⟩

/-- C6.  The claim fails on the code: for a candidate ref whose
fetched remote oid equals the local oid, the dry-run classification is
`NewRef` while the classification the same run would compute without
`dry_run` is `UpToDate` — the dry run replaces the fetched remote map
by an empty one, so every candidate ref is reported `NewRef`. -/
theorem c6_dry_run_misclassifies :
    (handle_sync_classification ["refs/git-issue/issues/1"]
        [("refs/git-issue/issues/1", "placeholder_local_oid")] true).map (·.comparison)
      = [.newRef]
    ∧ (handle_sync_classification ["refs/git-issue/issues/1"]
        [("refs/git-issue/issues/1", "placeholder_local_oid")] false).map (·.comparison)
      = [.upToDate]
    ∧ RefComparisonResult.newRef ≠ .upToDate :=
  ⟨rfl, rfl, by decide⟩

/-- C4 counterexample.  On a fresh repository the allocator returns 1
and installs a blob whose content is the bare decimal `"2"` —
`next_id.to_string()` — with no trailing newline, so the written
content differs from the `"<decimal>\n"` the claim requires. -/
theorem c4_counter_no_trailing_newline :
    increment_issue_id ⟨[], []⟩
      = .ok (1, ⟨[.blob (.text "2")], [(meta_ref, 0)]⟩)
    ∧ "2" ≠ "2\n" :=
  ⟨rfl, by decide⟩

/-- C7 counterexample.  The token `open` is accepted by the CLI's
`parse_status` but rejected by `IssueStatus::from_str`, which is what
the YAML edit form's validation uses: the two grammars differ, against
the claim that both accept the same token set. -/
theorem c7_counter_edit_form_rejects_open :
    parse_status "open" = some .todo
    ∧ IssueStatus.fromStr "open" = none
    ∧ validate_editable_issue
        { title := "T", status := "open", labels := [], assignee := none, description := "" }
      = .error "Invalid status: open" :=
  ⟨rfl, rfl, rfl⟩

/-- C8 counterexample.  In `corruptChainState`, issue 1 is listed by
`list_issue_ids` but its chain fails to decode with a serialization
error (not `IssueNotFound`), and `list_issues` aborts with that error
instead of skipping the issue and returning the empty listing. -/
theorem c8_counter_decode_failure_aborts_listing :
    list_issue_ids corruptChainState = .ok [1]
    ∧ get_issue corruptChainState 1 = .error (.serialization "invalid event JSON")
    ∧ list_issues corruptChainState = .error (.serialization "invalid event JSON") :=
  ⟨rfl, rfl, rfl⟩

/-- C9 counterexample.  In `assigneesChainState`, issue 1's events
decode to `[Created, AssigneesChanged]` — the first event is `Created`
and `Created` does not recur — yet `get_issue` neither returns the
fold of the events nor an `InvalidEventSequence`: the fold has no arm
for `AssigneesChanged`, so the reconstruction is stuck. -/
theorem c9_counter_unfoldable_tail_event :
    get_issue_events assigneesChainState 1
      = .ok [.created "T" "D" aliceId 0, .assigneesChanged [] [aliceId] aliceId 1]
    ∧ (IssueEvent.created "T" "D" aliceId 0).isCreated = true
    ∧ (IssueEvent.assigneesChanged [] [aliceId] aliceId 1).isCreated = false
    ∧ get_issue assigneesChainState 1
      = .error (.illFormed "apply_event: no match arm for this event variant") :=
  ⟨rfl, rfl, rfl, rfl⟩

/-- Updating a binding makes it the one `lookupRef` finds. -/
theorem lookupRef_setRef (refs : List (String × Nat)) (name : String) (oid : Nat) :
    lookupRef (setRef refs name oid) name = some oid := by
  induction refs with
  | nil => simp [setRef, lookupRef]
  | cons p rest ih =>
      obtain ⟨n, o⟩ := p
      by_cases h : n = name
      · simp [setRef, h, lookupRef]
      · simp [setRef, h, lookupRef, ih]

/-- C4, amended.  Whenever the allocator can read the current value
`v` (1 when the meta ref is absent), `increment_issue_id` returns `v`
and writes a new blob whose content is the decimal representation of
the `u64` successor `(v + 1) % 2 ^ 64` with NO trailing newline,
installing it by creating the meta ref when it was absent and
otherwise updating it with the previous blob oid as the expected
value. -/
theorem c4_amended_allocator_writes_bare_decimal (s : RepoState) (v : Nat)
    (h : get_next_issue_id s = .ok v) :
    ∃ s', increment_issue_id s = .ok (v, s')
      ∧ s'.objects = s.objects ++ [.blob (.text (toString ((v + 1) % 2 ^ 64)))]
      ∧ read_ref s' meta_ref = some s.objects.length
      ∧ (read_ref s meta_ref = none →
           v = 1 ∧ s'.refs = (meta_ref, s.objects.length) :: s.refs)
      ∧ (∀ o, read_ref s meta_ref = some o →
           s'.refs = setRef s.refs meta_ref s.objects.length) := by
  rcases hnr : lookupRef s.refs meta_ref with _ | o
  · have hv : v = 1 := by
      simp only [get_next_issue_id, read_ref, hnr] at h
      exact (Except.ok.injEq _ _ ▸ h).symm
    subst hv
    refine ⟨⟨s.objects ++ [.blob (.text (toString ((1 + 1) % 2 ^ 64)))],
             (meta_ref, s.objects.length) :: s.refs⟩, ?_, rfl, ?_, ?_, ?_⟩
    · simp only [increment_issue_id, h, write_blob, read_ref, create_ref, hnr,
        Option.isSome_none, Bool.false_eq_true, if_false]
    · simp [read_ref, lookupRef]
    · exact fun _ => ⟨rfl, rfl⟩
    · intro o ho
      simp only [read_ref, hnr] at ho
      exact absurd ho (by simp)
  · refine ⟨⟨s.objects ++ [.blob (.text (toString ((v + 1) % 2 ^ 64)))],
             setRef s.refs meta_ref s.objects.length⟩, ?_, rfl, ?_, ?_, ?_⟩
    · simp only [increment_issue_id, h, write_blob, read_ref, update_ref, hnr, if_pos rfl,
        if_true]
    · simp [read_ref, lookupRef_setRef]
    · intro h0
      simp only [read_ref, hnr] at h0
      exact absurd h0 (by simp)
    · exact fun _ _ => rfl

/-- C4 witness: the amended allocator contract, instantiated on the
fresh repository (value 1, blob content `"2"`) and at the `u64::MAX`
boundary (where the successor wraps to 0 and the written blob is
`"0"`). -/
theorem c4_amended_witness :
    (∃ s', increment_issue_id ⟨[], []⟩ = .ok (1, s')
      ∧ s'.objects = ([] : List GitObject) ++ [.blob (.text (toString ((1 + 1) % 2 ^ 64)))]
      ∧ read_ref s' meta_ref = some (List.length ([] : List GitObject))
      ∧ (read_ref ⟨[], []⟩ meta_ref = none →
           1 = 1 ∧ s'.refs = (meta_ref, List.length ([] : List GitObject)) :: [])
      ∧ (∀ o, read_ref ⟨[], []⟩ meta_ref = some o →
           s'.refs = setRef [] meta_ref (List.length ([] : List GitObject))))
    ∧ (∃ s', increment_issue_id maxIdState = .ok (18446744073709551615, s')
      ∧ s'.objects = maxIdState.objects
          ++ [.blob (.text (toString ((18446744073709551615 + 1) % 2 ^ 64)))]
      ∧ read_ref s' meta_ref = some maxIdState.objects.length
      ∧ (read_ref maxIdState meta_ref = none →
           18446744073709551615 = 1
           ∧ s'.refs = (meta_ref, maxIdState.objects.length) :: maxIdState.refs)
      ∧ (∀ o, read_ref maxIdState meta_ref = some o →
           s'.refs = setRef maxIdState.refs meta_ref maxIdState.objects.length)) :=
  ⟨c4_amended_allocator_writes_bare_decimal ⟨[], []⟩ 1 rfl,
   c4_amended_allocator_writes_bare_decimal maxIdState 18446744073709551615 rfl⟩

/-- The CLI status grammar: `parse_status` accepts, case-insensitively,
exactly `todo`/`open`, `in-progress`/`inprogress`/`progress`, and
`done`/`closed`/`complete`. -/
theorem parse_status_char (s : String) :
    (parse_status s = some .todo ↔ (lowerStr s = "todo" ∨ lowerStr s = "open"))
    ∧ (parse_status s = some .inProgress ↔
        (lowerStr s = "in-progress" ∨ lowerStr s = "inprogress" ∨ lowerStr s = "progress"))
    ∧ (parse_status s = some .done ↔
        (lowerStr s = "done" ∨ lowerStr s = "closed" ∨ lowerStr s = "complete"))
    ∧ (parse_status s = none ↔
        ¬ (lowerStr s = "todo" ∨ lowerStr s = "open" ∨ lowerStr s = "in-progress" ∨
           lowerStr s = "inprogress" ∨ lowerStr s = "progress" ∨ lowerStr s = "done" ∨
           lowerStr s = "closed" ∨ lowerStr s = "complete")) := by
  unfold parse_status
  generalize lowerStr s = t
  simp only []
  split_ifs with h1 h2 h3 <;>
    refine ⟨?_, ?_, ?_, ?_⟩ <;>
    first
      | (rcases h1 with h | h <;> subst h <;> simp)
      | (rcases h2 with h | h | h <;> subst h <;> simp)
      | (rcases h3 with h | h | h <;> subst h <;> simp)
      | (simp_all [not_or])

/-- The YAML edit-form status grammar: `IssueStatus::from_str` accepts,
case-insensitively, exactly `todo`, `in-progress`, `inprogress` and
`done`; in particular it rejects `open`, `progress`, `closed` and
`complete`. -/
theorem fromStr_char (s : String) :
    (IssueStatus.fromStr s = some .todo ↔ lowerStr s = "todo")
    ∧ (IssueStatus.fromStr s = some .inProgress ↔
        (lowerStr s = "in-progress" ∨ lowerStr s = "inprogress"))
    ∧ (IssueStatus.fromStr s = some .done ↔ lowerStr s = "done")
    ∧ (IssueStatus.fromStr s = none ↔
        ¬ (lowerStr s = "todo" ∨ lowerStr s = "in-progress" ∨ lowerStr s = "inprogress" ∨
           lowerStr s = "done")) := by
  unfold IssueStatus.fromStr
  generalize lowerStr s = t
  simp only []
  split_ifs with h1 h2 h3 <;>
    refine ⟨?_, ?_, ?_, ?_⟩ <;>
    first
      | (subst h1 <;> simp)
      | (rcases h2 with h | h <;> subst h <;> simp)
      | (subst h3 <;> simp)
      | (simp_all [not_or])

/-- C7, amended.  The CLI's `parse_status` accepts case-insensitively
exactly the claimed token set, but the YAML edit form's status field
is parsed with `IssueStatus::from_str`, which accepts only `todo`,
`in-progress`, `inprogress` and `done` and fails on every other token
— in particular on `open`, `progress`, `closed` and `complete`. -/
theorem c7_amended_two_status_grammars (s : String) :
    ((parse_status s = some .todo ↔ (lowerStr s = "todo" ∨ lowerStr s = "open"))
     ∧ (parse_status s = some .inProgress ↔
         (lowerStr s = "in-progress" ∨ lowerStr s = "inprogress" ∨ lowerStr s = "progress"))
     ∧ (parse_status s = some .done ↔
         (lowerStr s = "done" ∨ lowerStr s = "closed" ∨ lowerStr s = "complete"))
     ∧ (parse_status s = none ↔
         ¬ (lowerStr s = "todo" ∨ lowerStr s = "open" ∨ lowerStr s = "in-progress" ∨
            lowerStr s = "inprogress" ∨ lowerStr s = "progress" ∨ lowerStr s = "done" ∨
            lowerStr s = "closed" ∨ lowerStr s = "complete")))
    ∧ ((IssueStatus.fromStr s = some .todo ↔ lowerStr s = "todo")
       ∧ (IssueStatus.fromStr s = some .inProgress ↔
           (lowerStr s = "in-progress" ∨ lowerStr s = "inprogress"))
       ∧ (IssueStatus.fromStr s = some .done ↔ lowerStr s = "done")
       ∧ (IssueStatus.fromStr s = none ↔
           ¬ (lowerStr s = "todo" ∨ lowerStr s = "in-progress" ∨
              lowerStr s = "inprogress" ∨ lowerStr s = "done"))) :=
  ⟨parse_status_char s, fromStr_char s⟩

/-- If every listed id reconstructs or fails only with `IssueNotFound`,
the listing loop succeeds with exactly the reconstructed issues of the
decodable ids, in order, the `IssueNotFound` ones skipped. -/
theorem listIssuesLoop_ok (s : RepoState) (ids : List Nat)
    (h : ∀ id ∈ ids, okOrNotFound (get_issue s id) = true) :
    listIssuesLoop s ids = .ok (ids.filterMap (fun id => (get_issue s id).toOption)) := by
  induction ids with
  | nil => rfl
  | cons id rest ih =>
      have hid := h id (by simp)
      have hrest := ih (fun j hj => h j (by simp [hj]))
      rcases hg : get_issue s id with e | i
      · rcases e with _ | _ | _ | _ | k | _ | _ | _ | _ <;>
          simp [okOrNotFound, hg] at hid ⊢
        simp [listIssuesLoop, hg, hrest, Except.toOption]
      · simp [listIssuesLoop, hg, hrest, Except.toOption]

/-- The first listed id that fails with anything other than
`IssueNotFound` (all ids before it reconstructing or skipped) aborts
the listing loop with exactly that error. -/
theorem listIssuesLoop_first_err (s : RepoState) (pre : List Nat) :
    ∀ id post e, (∀ j ∈ pre, okOrNotFound (get_issue s j) = true) →
      get_issue s id = .error e → notFoundErr e = false →
      listIssuesLoop s (pre ++ id :: post) = .error e := by
  induction pre with
  | nil =>
      intro id post e _ hg hnf
      rcases e with _ | _ | _ | _ | k | _ | _ | _ | _ <;>
        simp [notFoundErr] at hnf <;> simp [listIssuesLoop, hg]
  | cons j pre2 ih =>
      intro id post e hpre hg hnf
      have hj := hpre j (by simp)
      have hrest := ih id post e (fun x hx => hpre x (by simp [hx])) hg hnf
      rcases hgj : get_issue s j with ej | i
      · rcases ej with _ | _ | _ | _ | k | _ | _ | _ | _ <;>
          simp [okOrNotFound, hgj] at hj ⊢
        simp [listIssuesLoop, hgj, hrest]
      · simp [listIssuesLoop, hgj, hrest]

/-- C8, amended.  `list_issues` returns exactly the reconstructed
issues of the listed ids whose chains decode, in listing order,
skipping (and continuing past) exactly the ids whose reconstruction
fails with `IssueNotFound`; and the first id that fails with any other
decode error (invalid event sequence, serialization failure, ...)
aborts the whole call with that very error instead of being skipped. -/
theorem c8_amended_only_notfound_skipped (s : RepoState) (ids : List Nat)
    (h : list_issue_ids s = .ok ids) :
    ((∀ id ∈ ids, okOrNotFound (get_issue s id) = true) →
       list_issues s = .ok (ids.filterMap (fun id => (get_issue s id).toOption)))
    ∧ (∀ pre id post e, ids = pre ++ id :: post →
        (∀ j ∈ pre, okOrNotFound (get_issue s j) = true) →
        get_issue s id = .error e → notFoundErr e = false →
        list_issues s = .error e) := by
  constructor
  · intro hall
    simp [list_issues, h, listIssuesLoop_ok s ids hall]
  · intro pre id post e hids hpre hg hnf
    subst hids
    simp [list_issues, h, listIssuesLoop_first_err s pre id post e hpre hg hnf]

/-- C8 witness: in `mixedState`, issue 2 fails with `IssueNotFound`
and is skipped while the traversal continues and issue 1's
reconstruction is returned; in `corruptChainState`, the serialization
failure of issue 1 aborts the listing with exactly that error. -/
theorem c8_amended_witness :
    list_issues mixedState
      = .ok ([1, 2].filterMap (fun id => (get_issue mixedState id).toOption))
    ∧ list_issues corruptChainState = .error (.serialization "invalid event JSON") :=
  ⟨(c8_amended_only_notfound_skipped mixedState [1, 2] rfl).1 (by decide),
   (c8_amended_only_notfound_skipped corruptChainState [1] rfl).2 [] 1 []
     (.serialization "invalid event JSON") rfl (by simp) rfl rfl⟩

/-- On any event that is neither `Created` nor one of the unhandled
variants, the fold step succeeds. -/
theorem apply_event_ok_of_handled (i : Issue) (e : IssueEvent)
    (h1 : e.unhandledByFold = false) (h2 : e.isCreated = false) :
    ∃ j, apply_event i e = .ok j := by
  cases e
  case created => simp [IssueEvent.isCreated] at h2
  case assigneesChanged => simp [IssueEvent.unhandledByFold] at h1
  case createdByChanged => simp [IssueEvent.unhandledByFold] at h1
  all_goals exact ⟨_, rfl⟩

/-- A tail with no unhandled variant and no `Created` folds to success. -/
theorem apply_events_ok_of (l : List IssueEvent) :
    ∀ i, (∀ e ∈ l, e.unhandledByFold = false) → (∀ e ∈ l, e.isCreated = false) →
      ∃ j, apply_events i l = .ok j := by
  induction l with
  | nil => exact fun i _ _ => ⟨i, rfl⟩
  | cons e rest ih =>
      intro i h1 h2
      obtain ⟨j, hj⟩ := apply_event_ok_of_handled i e (h1 e (by simp)) (h2 e (by simp))
      obtain ⟨k, hk⟩ := ih j (fun x hx => h1 x (by simp [hx])) (fun x hx => h2 x (by simp [hx]))
      exact ⟨k, by simp [apply_events, hj, hk]⟩

/-- A tail with no unhandled variant but containing a `Created` folds
to the duplicate-`Created` error. -/
theorem apply_events_err_of (l : List IssueEvent) :
    ∀ i, (∀ e ∈ l, e.unhandledByFold = false) → (∃ e ∈ l, e.isCreated = true) →
      ∃ m, apply_events i l = .err m := by
  induction l with
  | nil =>
      rintro i _ ⟨e, he, _⟩
      cases he
  | cons e rest ih =>
      intro i h1 hex
      by_cases hc : e.isCreated = true
      · have happ : apply_event i e = .err "Cannot apply Created event to existing issue" := by
          cases e <;> simp only [IssueEvent.isCreated, Bool.false_eq_true] at hc
          rfl
        exact ⟨"Cannot apply Created event to existing issue", by simp [apply_events, happ]⟩
      · have hcf : e.isCreated = false := by simpa using hc
        obtain ⟨j, hj⟩ := apply_event_ok_of_handled i e (h1 e (by simp)) hcf
        obtain ⟨x, hx, hxc⟩ := hex
        rcases List.mem_cons.mp hx with rfl | hxr
        · exact absurd hxc hc
        · obtain ⟨m, hm⟩ := ih j (fun y hy => h1 y (by simp [hy])) ⟨x, hxr, hxc⟩
          exact ⟨m, by simp [apply_events, hj, hm]⟩

/-- When the head event is not `Created`, `from_events` fails at once. -/
theorem from_events_not_created (id : Nat) (e0 : IssueEvent) (rest : List IssueEvent)
    (h : e0.isCreated = false) :
    from_events id (e0 :: rest) = .err "First event must be Created" := by
  cases e0
  case created => simp [IssueEvent.isCreated] at h
  all_goals rfl

/-- C9, amended.  Provided the decoded event sequence has no
`AssigneesChanged` / `CreatedByChanged` event after its head (the fold
has no arm for those), `get_issue` fails with `IssueNotFound` exactly
when the sequence is empty; fails with `InvalidEventSequence` when the
first event is not `Created` or `Created` occurs again later; and
otherwise returns the fold of the events. -/
theorem c9_amended_get_issue_contract (s : RepoState) (id : Nat) (evs : List IssueEvent)
    (hev : get_issue_events s id = .ok evs)
    (hhandled : ∀ e ∈ evs.tail, e.unhandledByFold = false) :
    ((get_issue s id = .error (.issueNotFound id)) ↔ evs = [])
    ∧ (∀ e0 rest, evs = e0 :: rest →
         (e0.isCreated = false ∨ ∃ e ∈ rest, e.isCreated = true) →
         ∃ m, get_issue s id = .error (.invalidEventSequence m))
    ∧ (∀ e0 rest, evs = e0 :: rest → e0.isCreated = true →
         (∀ e ∈ rest, e.isCreated = false) →
         ∃ i, from_events id evs = .ok i ∧ get_issue s id = .ok i) := by
  have hget : get_issue s id =
      (if evs.isEmpty then .error (.issueNotFound id)
       else
         match from_events id evs with
         | .ok i => .ok i
         | .err m => .error (.invalidEventSequence m)
         | .stuck => .error (.illFormed "apply_event: no match arm for this event variant")) := by
    simp [get_issue, hev]
  refine ⟨?_, ?_, ?_⟩
  · constructor
    · intro h
      cases evs with
      | nil => rfl
      | cons e0 rest =>
          rw [hget] at h
          simp only [List.isEmpty_cons, if_false, Bool.false_eq_true] at h
          rcases hfe : from_events id (e0 :: rest) with i | m | _ <;>
            rw [hfe] at h <;> exact absurd h (by simp)
    · intro h
      subst h
      simp [hget]
  · intro e0 rest hcons hbad
    subst hcons
    rcases hbad with hbad | hbad
    · exact ⟨"First event must be Created",
        by rw [hget]; simp [from_events_not_created id e0 rest hbad]⟩
    · by_cases hc : e0.isCreated = true
      · cases e0 <;> simp only [IssueEvent.isCreated, Bool.false_eq_true] at hc
        rename_i t d a ts
        obtain ⟨m, hm⟩ :=
          apply_events_err_of rest (initialIssue id t d a ts) (by simpa using hhandled) hbad
        refine ⟨m, ?_⟩
        rw [hget]
        simp [from_events, hm]
      · have hcf : e0.isCreated = false := by simpa using hc
        exact ⟨"First event must be Created",
          by rw [hget]; simp [from_events_not_created id e0 rest hcf]⟩
  · intro e0 rest hcons hc hnone
    subst hcons
    cases e0 <;> simp only [IssueEvent.isCreated, Bool.false_eq_true] at hc
    rename_i t d a ts
    obtain ⟨j, hj⟩ :=
      apply_events_ok_of rest (initialIssue id t d a ts) (by simpa using hhandled) hnone
    refine ⟨j, ?_, ?_⟩
    · simp [from_events, hj]
    · rw [hget]
      simp [from_events, hj]

/-- C9 witness: on the freshly created issue (a one-event chain whose
head is `Created`), the amended contract yields the reconstructed
aggregate. -/
theorem c9_amended_witness :
    ∃ i, from_events 1 [.created "T1" "D" aliceId 0] = .ok i
      ∧ get_issue issueOneState 1 = .ok i :=
  (c9_amended_get_issue_contract issueOneState 1 [.created "T1" "D" aliceId 0] rfl
      (by simp)).2.2 (.created "T1" "D" aliceId 0) [] rfl rfl (by simp)

/-- A single fold step preserves duplicate-freedom of the label list:
the `LabelAdded` arm appends only when the label is absent, the
`LabelRemoved` arm filters, and no other arm touches the labels. -/
theorem apply_event_nodup (i : Issue) (e : IssueEvent) (j : Issue)
    (h : apply_event i e = .ok j) (hn : i.labels.Nodup) : j.labels.Nodup := by
  cases e <;> simp only [apply_event, FoldOutcome.ok.injEq, reduceCtorEq] at h <;>
    try subst h
  case statusChanged => exact hn
  case commentAdded => exact hn
  case labelAdded l _ ts =>
      by_cases hc : i.labels.contains l
      · have hmem : l ∈ i.labels := by simpa using hc
        simp [hmem, hn]
      · have hmem : l ∉ i.labels := by simpa using hc
        simp [hmem, List.nodup_append, hn]
  case labelRemoved l _ ts => exact hn.filter _
  case titleChanged => exact hn
  case assigneeChanged => exact hn
  case descriptionChanged => exact hn
  case priorityChanged => exact hn

/-- The fold loop preserves duplicate-freedom of the label list. -/
theorem apply_events_nodup (l : List IssueEvent) :
    ∀ i j, i.labels.Nodup → apply_events i l = .ok j → j.labels.Nodup := by
  induction l with
  | nil =>
      intro i j hn h
      simp only [apply_events, FoldOutcome.ok.injEq] at h
      exact h ▸ hn
  | cons e rest ih =>
      intro i j hn h
      rcases happ : apply_event i e with k | m | _ <;> rw [apply_events, happ] at h
      · exact ih k j (apply_event_nodup i e k happ hn) h
      · cases h
      · cases h

/-- C10.  Label uniqueness is an invariant of replay itself: every
event sequence the fold accepts — including sequences containing a
`LabelAdded` for an already-present label — reconstructs an issue
whose label list has no duplicates. -/
theorem c10_replay_labels_nodup (id : Nat) (evs : List IssueEvent) (i : Issue)
    (h : from_events id evs = .ok i) : i.labels.Nodup := by
  cases evs with
  | nil => cases h
  | cons e0 rest =>
      cases e0 <;> simp only [from_events] at h <;> try cases h
      exact apply_events_nodup rest _ i (by simp [initialIssue]) h

/-- C10 witness: a chain that adds the label `bug` twice is accepted
by the fold and reconstructs with a single `bug` label, duplicate-free
by the invariant. -/
theorem c10_witness :
    from_events 1 dupLabelEvents = .ok dupLabelIssue ∧ dupLabelIssue.labels.Nodup :=
  ⟨rfl, c10_replay_labels_nodup 1 dupLabelEvents dupLabelIssue rfl⟩
